import Mathlib

/-!
Shallow embedding of the HW-GeoGuessr game core: the scoring engine and the
session state machine of `react-vite-app/src/hooks/useGameState.js` (the
multi-round version), the performance rating of the final-results screen, and
the UI wiring of `App.jsx` / `ResultScreen`.

JavaScript numbers are idealized as exact arithmetic: coordinates and
distances become real numbers (`Math.sqrt` / `Math.exp` become `Real.sqrt` /
`Real.exp`), scores become integers, and the percentage computation of the
performance rating is modelled over `ℚ` with the division-by-zero special
values (`NaN`, `±Infinity`) made explicit.
-/

namespace GeoGuessr

/-! ## Scoring engine -/

/-- `calculateDistance(guess, actual)`: Euclidean distance between two points
in percentage coordinates (`Math.sqrt(dx*dx + dy*dy)`). -/
structure Point where
  x : ℝ
  y : ℝ

noncomputable def calculateDistance (guess actual : Point) : ℝ :=
  let dx := guess.x - actual.x
  let dy := guess.y - actual.y
  Real.sqrt (dx * dx + dy * dy)

/-- `calculateLocationScore(distance)` from `useGameState.js`:
`Math.round(5000 * Math.exp(-0.05 * distance))`, then
`Math.max(0, Math.min(5000, score))`.  `Math.round` rounds half toward
positive infinity, which is Mathlib's `round`. -/
noncomputable def calculateLocationScore (distance : ℝ) : ℤ :=
  let maxScore : ℤ := 5000
  let decayRate : ℝ := 0.05
  let score : ℤ := round ((maxScore : ℝ) * Real.exp (-decayRate * distance))
  max 0 (min maxScore score)

/-- The total-score rule inlined in `submitGuess`:
`floorCorrect ? locationScore : Math.round(locationScore * 0.8)`. -/
noncomputable def roundScore (locationScore : ℤ) (floorCorrect : Bool) : ℤ :=
  if floorCorrect then locationScore else round ((locationScore : ℝ) * 0.8)

/-! ## Performance rating (FinalResultsScreen utility)

`getPerformanceRating(totalScore, maxPossible)` computes
`(totalScore / maxPossible) * 100` and compares it against thresholds with
`>=`.  JavaScript division by zero produces `NaN` (for `0/0`) or `±Infinity`;
every `>=` comparison with `NaN` is false.  We model the finite values exactly
as rationals and keep the three special values explicit. -/

inductive Rating where
  | perfect
  | excellent
  | great
  | good
  | keepPracticing
  | beginner
  deriving DecidableEq, Repr

/-- A JavaScript number restricted to what the rating computation can
produce: a finite (idealized exact) value, or a division-by-zero special
value. -/
inductive JSNum where
  | nan
  | posInf
  | negInf
  | fin (q : ℚ)
  deriving DecidableEq

/-- JavaScript division `a / b` on (idealized) numbers: `0/0 = NaN`,
`a/0 = ±Infinity` for `a ≠ 0`, exact quotient otherwise. -/
def jsDiv (a b : ℚ) : JSNum :=
  if b = 0 then
    if a = 0 then JSNum.nan
    else if 0 < a then JSNum.posInf
    else JSNum.negInf
  else JSNum.fin (a / b)

/-- Multiplication of a JS number by a positive rational constant (here 100):
special values are preserved. -/
def JSNum.mulPos (x : JSNum) (c : ℚ) : JSNum :=
  match x with
  | JSNum.nan => JSNum.nan
  | JSNum.posInf => JSNum.posInf
  | JSNum.negInf => JSNum.negInf
  | JSNum.fin q => JSNum.fin (q * c)

/-- JavaScript `x >= c` for a threshold constant `c`: false for `NaN`, true
for `+Infinity`, false for `-Infinity`. -/
def JSNum.geC (x : JSNum) (c : ℚ) : Bool :=
  match x with
  | JSNum.nan => false
  | JSNum.posInf => true
  | JSNum.negInf => false
  | JSNum.fin q => decide (c ≤ q)

/-- `getPerformanceRating(totalScore, maxPossible)` from the final-results
utilities: `percentage = (totalScore / maxPossible) * 100` followed by the
`>=` threshold ladder 95 / 80 / 60 / 40 / 20. -/
def getPerformanceRating (totalScore maxPossible : ℚ) : Rating :=
  let percentage := (jsDiv totalScore maxPossible).mulPos 100
  if percentage.geC 95 then Rating.perfect
  else if percentage.geC 80 then Rating.excellent
  else if percentage.geC 60 then Rating.great
  else if percentage.geC 40 then Rating.good
  else if percentage.geC 20 then Rating.keepPracticing
  else Rating.beginner

/-- The spec's `performanceTier`: `percentage = total/max*100` with the
division-by-zero guard `max = 0 → percentage = 0`, then the inclusive
threshold ladder.  Written from the spec's words, to be compared with
`getPerformanceRating`. -/
def specPerformanceTier (total maxPossible : ℚ) : Rating :=
  let percentage : ℚ := if maxPossible = 0 then 0 else total / maxPossible * 100
  if 95 ≤ percentage then Rating.perfect
  else if 80 ≤ percentage then Rating.excellent
  else if 60 ≤ percentage then Rating.great
  else if 40 ≤ percentage then Rating.good
  else if 20 ≤ percentage then Rating.keepPracticing
  else Rating.beginner

/-- The threshold ladder of the spec applied to an already-computed finite
percentage. -/
def specTierOfPercentage (percentage : ℚ) : Rating :=
  if 95 ≤ percentage then Rating.perfect
  else if 80 ≤ percentage then Rating.excellent
  else if 60 ≤ percentage then Rating.great
  else if 40 ≤ percentage then Rating.good
  else if 20 ≤ percentage then Rating.keepPracticing
  else Rating.beginner

/-! ## Session state machine (`useGameState.js`, multi-round version)

The hook's state is a record of the nine `useState` cells.  The two
asynchronous actions (`startGame` and the `loadNewImage` used by `nextRound`)
await `getRandomImage()`; we model a completed invocation by passing the
fetch outcome as an explicit `Option GameImage` argument (`none` = the
promise rejected).  Both actions catch the rejection themselves, so each
action is a total function on states. -/

def TOTAL_ROUNDS : ℕ := 5

/-- One image record as delivered by the image service.  `correctLocation`
and `correctFloor` may be missing (the code defaults them with `||`). -/
structure GameImage where
  url : String
  correctLocation : Option Point
  correctFloor : Option ℤ

inductive Screen where
  | title
  | game
  | result
  | finalResults
  deriving DecidableEq, Repr

/-- The result object built by `submitGuess`. -/
structure RoundResult where
  roundNumber : ℕ
  imageUrl : String
  guessLocation : Point
  actualLocation : Point
  guessFloor : ℤ
  actualFloor : ℤ
  distance : ℝ
  locationScore : ℤ
  floorCorrect : Bool
  score : ℤ

/-- The nine `useState` cells of `useGameState`. -/
structure GameState where
  screen : Screen
  currentRound : ℕ
  currentImage : Option GameImage
  guessLocation : Option Point
  guessFloor : Option ℤ
  currentResult : Option RoundResult
  roundResults : List RoundResult
  isLoading : Bool
  error : Option String

/-- The initial values of the nine `useState` calls. -/
def initialState : GameState :=
  { screen := Screen.title
    currentRound := 1
    currentImage := none
    guessLocation := none
    guessFloor := none
    currentResult := none
    roundResults := []
    isLoading := false
    error := none }

def loadFailureMessage : String := "Failed to load image. Please try again."

/-- `loadNewImage` after its awaited fetch settles: on success install the
image and clear the guess; on rejection the catch block records the error.
The `finally` block always clears `isLoading`. -/
def loadNewImage (s : GameState) (fetched : Option GameImage) : GameState :=
  match fetched with
  | some image =>
      { s with
          currentImage := some image
          guessLocation := none
          guessFloor := none
          isLoading := false
          error := none }
  | none =>
      { s with
          isLoading := false
          error := some loadFailureMessage }

/-- `startGame` after its awaited fetch settles.  The round counter, round
results and current result are reset before the fetch, so they are reset on
the failure path too; the screen changes only on success. -/
def startGame (s : GameState) (fetched : Option GameImage) : GameState :=
  let s := { s with
               currentRound := 1
               roundResults := []
               currentResult := none }
  match fetched with
  | some image =>
      { s with
          currentImage := some image
          guessLocation := none
          guessFloor := none
          screen := Screen.game
          isLoading := false
          error := none }
  | none =>
      { s with
          isLoading := false
          error := some loadFailureMessage }

/-- `placeMarker(coords)`. -/
def placeMarker (s : GameState) (coords : Point) : GameState :=
  { s with guessLocation := some coords }

/-- `selectFloor(floor)`. -/
def selectFloor (s : GameState) (floor : ℤ) : GameState :=
  { s with guessFloor := some floor }

/-- `submitGuess()`.  The guard `!guessLocation || !guessFloor ||
!currentImage` is a JavaScript truthiness test: a missing field aborts, and
so does a guessed floor of `0` (the number `0` is falsy).  The defaults
`currentImage.correctLocation || {x:50,y:50}` and
`currentImage.correctFloor || 1` use the same truthiness rule (a point object
is always truthy; a floor of `0` is replaced by `1`). -/
noncomputable def submitGuess (s : GameState) : GameState :=
  match s.guessLocation, s.guessFloor, s.currentImage with
  | some gl, some gf, some image =>
      if gf = 0 then s
      else
        let actualLocation := image.correctLocation.getD ⟨50, 50⟩
        let actualFloor :=
          match image.correctFloor with
          | some f => if f = 0 then 1 else f
          | none => 1
        let distance := calculateDistance gl actualLocation
        let locationScore := calculateLocationScore distance
        let floorCorrect : Bool := decide (gf = actualFloor)
        let totalScore := roundScore locationScore floorCorrect
        let result : RoundResult :=
          { roundNumber := s.currentRound
            imageUrl := image.url
            guessLocation := gl
            actualLocation := actualLocation
            guessFloor := gf
            actualFloor := actualFloor
            distance := distance
            locationScore := locationScore
            floorCorrect := floorCorrect
            score := totalScore }
        { s with
            currentResult := some result
            roundResults := s.roundResults ++ [result]
            screen := Screen.result }
  | _, _, _ => s

/-- `nextRound()` after its awaited `loadNewImage` settles.  On the final
round it only switches the screen and returns before any fetch.  Otherwise
the round counter is bumped, the current result cleared, the fetch outcome
applied, and — because `loadNewImage` swallows its own rejection — the screen
is set to `game` unconditionally. -/
noncomputable def nextRound (s : GameState) (fetched : Option GameImage) : GameState :=
  if TOTAL_ROUNDS ≤ s.currentRound then
    { s with screen := Screen.finalResults }
  else
    let s := { s with
                 currentRound := s.currentRound + 1
                 currentResult := none }
    let s := loadNewImage s fetched
    { s with screen := Screen.game }

/-- `viewFinalResults()`. -/
def viewFinalResults (s : GameState) : GameState :=
  { s with screen := Screen.finalResults }

/-- `resetGame()`.  Every cell except `isLoading` is reset. -/
def resetGame (s : GameState) : GameState :=
  { s with
      screen := Screen.title
      currentRound := 1
      currentImage := none
      guessLocation := none
      guessFloor := none
      currentResult := none
      roundResults := []
      error := none }

/-! ## Reachability

`Reachable` closes the action surface returned by the hook under arbitrary
call sequences from the initial state — the hook itself never checks which
screen an action is invoked from.

`UIReachable` additionally imposes the wiring of `App.jsx` and
`ResultScreen.jsx`: `startGame` is invoked from the title screen and (as
"Play Again") from the final-results screen; marker, floor and submission
from the game screen; "Next Round" from the result screen; "View Final
Results" from the result screen of the last round (`isLastRound`,
i.e. `currentRound >= totalRounds`); "Back to Title" anywhere. -/

inductive Reachable : GameState → Prop where
  | init : Reachable initialState
  | start {s} (f : Option GameImage) : Reachable s → Reachable (startGame s f)
  | place {s} (p : Point) : Reachable s → Reachable (placeMarker s p)
  | floor {s} (f : ℤ) : Reachable s → Reachable (selectFloor s f)
  | submit {s} : Reachable s → Reachable (submitGuess s)
  | advance {s} (f : Option GameImage) : Reachable s → Reachable (nextRound s f)
  | finals {s} : Reachable s → Reachable (viewFinalResults s)
  | reset {s} : Reachable s → Reachable (resetGame s)

inductive UIReachable : GameState → Prop where
  | init : UIReachable initialState
  | start {s} (f : Option GameImage) :
      UIReachable s → s.screen = Screen.title → UIReachable (startGame s f)
  | playAgain {s} (f : Option GameImage) :
      UIReachable s → s.screen = Screen.finalResults → UIReachable (startGame s f)
  | place {s} (p : Point) :
      UIReachable s → s.screen = Screen.game → UIReachable (placeMarker s p)
  | floor {s} (f : ℤ) :
      UIReachable s → s.screen = Screen.game → UIReachable (selectFloor s f)
  | submit {s} :
      UIReachable s → s.screen = Screen.game → UIReachable (submitGuess s)
  | advance {s} (f : Option GameImage) :
      UIReachable s → s.screen = Screen.result → UIReachable (nextRound s f)
  | finals {s} :
      UIReachable s → s.screen = Screen.result → TOTAL_ROUNDS ≤ s.currentRound →
      UIReachable (viewFinalResults s)
  | reset {s} : UIReachable s → UIReachable (resetGame s)

/-! ## Step lemmas -/

theorem nextRound_of_ge {s : GameState} (f : Option GameImage)
    (h : TOTAL_ROUNDS ≤ s.currentRound) :
    nextRound s f = { s with screen := Screen.finalResults } := by
  unfold nextRound
  rw [if_pos h]

theorem nextRound_of_lt {s : GameState} (f : Option GameImage)
    (h : s.currentRound < TOTAL_ROUNDS) :
    (nextRound s f).screen = Screen.game ∧
    (nextRound s f).currentRound = s.currentRound + 1 ∧
    (nextRound s f).roundResults = s.roundResults ∧
    (nextRound s f).currentResult = none := by
  unfold nextRound
  rw [if_neg (not_le.mpr h)]
  cases f <;> exact ⟨rfl, rfl, rfl, rfl⟩

theorem nextRound_failure {s : GameState} (h : s.currentRound < TOTAL_ROUNDS) :
    (nextRound s none).error = some loadFailureMessage ∧
    (nextRound s none).currentImage = s.currentImage ∧
    (nextRound s none).guessLocation = s.guessLocation ∧
    (nextRound s none).guessFloor = s.guessFloor ∧
    (nextRound s none).isLoading = false := by
  unfold nextRound
  rw [if_neg (not_le.mpr h)]
  exact ⟨rfl, rfl, rfl, rfl, rfl⟩

/-- `submitGuess` either leaves the state untouched (the truthiness guard) or
produces the result screen with one more round record, the round counter
unchanged, the guess fields unchanged, and a current result present. -/
theorem submitGuess_cases (s : GameState) :
    submitGuess s = s ∨
    ((submitGuess s).screen = Screen.result ∧
     (submitGuess s).currentRound = s.currentRound ∧
     (submitGuess s).roundResults.length = s.roundResults.length + 1 ∧
     (submitGuess s).currentResult.isSome = true) := by
  unfold submitGuess
  cases hgl : s.guessLocation with
  | none => exact Or.inl rfl
  | some gl =>
    cases hgf : s.guessFloor with
    | none => exact Or.inl rfl
    | some gf =>
      cases hci : s.currentImage with
      | none => exact Or.inl rfl
      | some image =>
        by_cases h0 : gf = 0
        · subst h0
          exact Or.inl rfl
        · refine Or.inr ?_
          simp [if_neg h0]

/-- If the guess is incomplete (missing location or floor), `submitGuess` is
the identity. -/
theorem submitGuess_incomplete {s : GameState}
    (h : s.guessLocation = none ∨ s.guessFloor = none) :
    submitGuess s = s := by
  unfold submitGuess
  rcases h with h | h
  · rw [h]
  · rw [h]
    cases s.guessLocation <;> rfl

/-! ## The inductive invariant of the UI-driven machine -/

/-- What holds of every state the UI wiring can reach:
* on the title screen the match data is in its initial shape;
* on the game screen the round counter is one past the history and bounded;
* on the result screen the round counter equals the history length and a
  current result exists;
* on the final-results screen either a complete match is recorded, or a
  failed "Play Again" fetch has already wiped the match data. -/
structure Inv (s : GameState) : Prop where
  title_inv : s.screen = Screen.title →
    s.currentRound = 1 ∧ s.roundResults = [] ∧ s.currentResult = none
  game_inv : s.screen = Screen.game →
    s.currentRound = s.roundResults.length + 1 ∧
    s.currentRound ≤ TOTAL_ROUNDS ∧ s.currentResult = none
  result_inv : s.screen = Screen.result →
    s.currentRound = s.roundResults.length ∧
    s.currentRound ≤ TOTAL_ROUNDS ∧ s.currentResult.isSome = true
  finals_inv : s.screen = Screen.finalResults →
    (s.currentRound = TOTAL_ROUNDS ∧ s.roundResults.length = TOTAL_ROUNDS) ∨
    (s.currentRound = 1 ∧ s.roundResults = [])

theorem uiReachable_inv {s : GameState} (h : UIReachable s) : Inv s := by
  induction h with
  | init =>
      exact ⟨fun _ => ⟨rfl, rfl, rfl⟩, fun h => Screen.noConfusion h,
             fun h => Screen.noConfusion h, fun h => Screen.noConfusion h⟩
  | start f hr hs ih =>
      rename_i s
      cases f with
      | some image =>
          exact ⟨fun h => Screen.noConfusion h,
                 fun _ => ⟨rfl, show (1:ℕ) ≤ TOTAL_ROUNDS by decide, rfl⟩,
                 fun h => Screen.noConfusion h, fun h => Screen.noConfusion h⟩
      | none =>
          refine ⟨fun _ => ⟨rfl, rfl, rfl⟩,
                  fun _ => ⟨rfl, show (1:ℕ) ≤ TOTAL_ROUNDS by decide, rfl⟩,
                  fun h => ?_, fun _ => Or.inr ⟨rfl, rfl⟩⟩
          have h' : s.screen = Screen.result := h
          rw [hs] at h'
          exact Screen.noConfusion h'
  | playAgain f hr hs ih =>
      rename_i s
      cases f with
      | some image =>
          exact ⟨fun h => Screen.noConfusion h,
                 fun _ => ⟨rfl, show (1:ℕ) ≤ TOTAL_ROUNDS by decide, rfl⟩,
                 fun h => Screen.noConfusion h, fun h => Screen.noConfusion h⟩
      | none =>
          refine ⟨fun _ => ⟨rfl, rfl, rfl⟩,
                  fun _ => ⟨rfl, show (1:ℕ) ≤ TOTAL_ROUNDS by decide, rfl⟩,
                  fun h => ?_, fun _ => Or.inr ⟨rfl, rfl⟩⟩
          have h' : s.screen = Screen.result := h
          rw [hs] at h'
          exact Screen.noConfusion h'
  | place p hr hs ih =>
      exact ⟨ih.title_inv, ih.game_inv, ih.result_inv, ih.finals_inv⟩
  | floor f hr hs ih =>
      exact ⟨ih.title_inv, ih.game_inv, ih.result_inv, ih.finals_inv⟩
  | submit hr hs ih =>
      rename_i s
      rcases submitGuess_cases s with heq | ⟨hscr, hrd, hlen, hsome⟩
      · rw [heq]; exact ih
      · obtain ⟨hrd2, hle, _⟩ := ih.game_inv hs
        refine ⟨fun h => Screen.noConfusion (hscr.symm.trans h),
                fun h => Screen.noConfusion (hscr.symm.trans h),
                fun _ => ⟨by rw [hrd, hlen, hrd2], by rw [hrd]; exact hle, hsome⟩,
                fun h => Screen.noConfusion (hscr.symm.trans h)⟩
  | advance f hr hs ih =>
      rename_i s
      obtain ⟨hrd, hle, _⟩ := ih.result_inv hs
      by_cases h5 : TOTAL_ROUNDS ≤ s.currentRound
      · have h55 : s.currentRound = TOTAL_ROUNDS := le_antisymm hle h5
        have e := nextRound_of_ge f h5
        have hscr : (nextRound s f).screen = Screen.finalResults := by rw [e]
        have hrd' : (nextRound s f).currentRound = s.currentRound := by rw [e]
        have hres : (nextRound s f).roundResults = s.roundResults := by rw [e]
        refine ⟨fun h => Screen.noConfusion (hscr.symm.trans h),
                fun h => Screen.noConfusion (hscr.symm.trans h),
                fun h => Screen.noConfusion (hscr.symm.trans h),
                fun _ => Or.inl ⟨hrd'.trans h55, ?_⟩⟩
        rw [hres]
        exact hrd.symm.trans h55
      · obtain ⟨hscr, hrd', hres, hcur⟩ := nextRound_of_lt f (not_le.mp h5)
        refine ⟨fun h => Screen.noConfusion (hscr.symm.trans h),
                fun _ => ⟨?_, ?_, hcur⟩,
                fun h => Screen.noConfusion (hscr.symm.trans h),
                fun h => Screen.noConfusion (hscr.symm.trans h)⟩
        · rw [hrd', hres, hrd]
        · rw [hrd']; exact not_le.mp h5
  | finals hr hs h5 ih =>
      obtain ⟨hrd, hle, _⟩ := ih.result_inv hs
      have h55 := le_antisymm hle h5
      exact ⟨fun h => Screen.noConfusion h, fun h => Screen.noConfusion h,
             fun h => Screen.noConfusion h,
             fun _ => Or.inl ⟨h55, hrd.symm.trans h55⟩⟩
  | reset hr ih =>
      exact ⟨fun _ => ⟨rfl, rfl, rfl⟩, fun h => Screen.noConfusion h,
             fun h => Screen.noConfusion h, fun h => Screen.noConfusion h⟩

/-! ## Concrete executions

A five-round match played against a provider that always returns the same
image, guessing `(50, 50)` on floor `1` every round. -/

noncomputable def demoImage : GameImage :=
  { url := "demo", correctLocation := some ⟨50, 50⟩, correctFloor := some 1 }

/-- Place a marker at `(50, 50)`, pick floor `1`, submit. -/
noncomputable def playRound (s : GameState) : GameState :=
  submitGuess (selectFloor (placeMarker s ⟨50, 50⟩) 1)

noncomputable def gameState1 : GameState := startGame initialState (some demoImage)

noncomputable def resultState1 : GameState := playRound gameState1

noncomputable def gameState2 : GameState := nextRound resultState1 (some demoImage)

noncomputable def resultState2 : GameState := playRound gameState2

noncomputable def gameState3 : GameState := nextRound resultState2 (some demoImage)

noncomputable def resultState3 : GameState := playRound gameState3

noncomputable def gameState4 : GameState := nextRound resultState3 (some demoImage)

noncomputable def resultState4 : GameState := playRound gameState4

noncomputable def gameState5 : GameState := nextRound resultState4 (some demoImage)

noncomputable def resultState5 : GameState := playRound gameState5

/-- Advancing from the round-5 result screen: the terminal short-circuit. -/
noncomputable def finalState : GameState := nextRound resultState5 none

/-- Six consecutive `submitGuess` calls: the first from the game screen, the
other five from the result screen (the hook has no screen guard). -/
noncomputable def doubleSubmitState : GameState :=
  submitGuess (submitGuess (submitGuess (submitGuess (submitGuess resultState1))))

theorem uiReachable_playRound {s : GameState} (h : UIReachable s)
    (hs : s.screen = Screen.game) : UIReachable (playRound s) :=
  UIReachable.submit (UIReachable.floor 1 (UIReachable.place ⟨50, 50⟩ h hs) hs) hs

theorem uiReachable_gameState1 : UIReachable gameState1 :=
  UIReachable.start (some demoImage) UIReachable.init rfl

theorem uiReachable_resultState1 : UIReachable resultState1 :=
  uiReachable_playRound uiReachable_gameState1 rfl

theorem uiReachable_gameState2 : UIReachable gameState2 :=
  UIReachable.advance (some demoImage) uiReachable_resultState1 rfl

theorem uiReachable_resultState2 : UIReachable resultState2 :=
  uiReachable_playRound uiReachable_gameState2 rfl

theorem uiReachable_gameState3 : UIReachable gameState3 :=
  UIReachable.advance (some demoImage) uiReachable_resultState2 rfl

theorem uiReachable_resultState3 : UIReachable resultState3 :=
  uiReachable_playRound uiReachable_gameState3 rfl

theorem uiReachable_gameState4 : UIReachable gameState4 :=
  UIReachable.advance (some demoImage) uiReachable_resultState3 rfl

theorem uiReachable_resultState4 : UIReachable resultState4 :=
  uiReachable_playRound uiReachable_gameState4 rfl

theorem uiReachable_gameState5 : UIReachable gameState5 :=
  UIReachable.advance (some demoImage) uiReachable_resultState4 rfl

theorem uiReachable_resultState5 : UIReachable resultState5 :=
  uiReachable_playRound uiReachable_gameState5 rfl

theorem uiReachable_finalState : UIReachable finalState :=
  UIReachable.advance none uiReachable_resultState5 rfl

theorem reachable_doubleSubmitState : Reachable doubleSubmitState :=
  Reachable.submit (Reachable.submit (Reachable.submit (Reachable.submit
    (Reachable.submit (Reachable.submit (Reachable.floor 1 (Reachable.place ⟨50, 50⟩
      (Reachable.start (some demoImage) Reachable.init))))))))

/-! ## The claims -/

/-- C1: for every distance `d`, `calculateLocationScore d` equals
`round (5000 * exp (-0.05 * d))` clamped to the interval `[0, 5000]`; in
particular the score at distance `0` is `5000`. -/
theorem c1_location_score_formula :
    (∀ d : ℝ, calculateLocationScore d
        = min 5000 (max 0 (round ((5000 : ℝ) * Real.exp (-(0.05 : ℝ) * d))))) ∧
    calculateLocationScore 0 = 5000 := by
  constructor
  · intro d
    show max 0 (min 5000 (round ((5000 : ℝ) * Real.exp (-(0.05 : ℝ) * d))))
        = min 5000 (max 0 (round ((5000 : ℝ) * Real.exp (-(0.05 : ℝ) * d))))
    omega
  · show max 0 (min 5000 (round ((5000 : ℝ) * Real.exp (-(0.05 : ℝ) * 0)))) = 5000
    have h1 : (-(0.05 : ℝ) * 0) = 0 := by ring
    have h2 : (5000 : ℝ) = ((5000 : ℤ) : ℝ) := by norm_num
    rw [h1, Real.exp_zero, mul_one, h2, round_intCast]
    decide

/-- C2: for every integer location score `s`, the round score is `s` when the
guessed floor matches the target floor and `round (s * 0.8)` when it does
not; in particular `roundScore 5000 false = 4000`. -/
theorem c2_round_score_rule :
    (∀ s : ℤ, roundScore s true = s) ∧
    (∀ s : ℤ, roundScore s false = round ((s : ℝ) * 0.8)) ∧
    roundScore 5000 false = 4000 := by
  refine ⟨fun s => rfl, fun s => rfl, ?_⟩
  show round (((5000 : ℤ) : ℝ) * 0.8) = 4000
  have h : ((5000 : ℤ) : ℝ) * 0.8 = ((4000 : ℤ) : ℝ) := by norm_num
  rw [h, round_intCast]

/-- C3 counterexample: the hook's `submitGuess` has no screen guard, so six
consecutive submissions (five of them from the result screen) produce a
reachable state whose history has six records, exceeding `TOTAL_ROUNDS`. -/
theorem c3_counterexample :
    Reachable doubleSubmitState ∧
    ¬ doubleSubmitState.roundResults.length ≤ TOTAL_ROUNDS := by
  refine ⟨reachable_doubleSubmitState, ?_⟩
  have h : doubleSubmitState.roundResults.length = 6 := rfl
  rw [h]
  decide

/-- C3 (amended): under sequences that respect the UI wiring — in particular
`submitGuess` only invoked from the Game screen — every reachable state has
`history.length ≤ totalRounds`. -/
theorem c3_history_bound {s : GameState} (h : UIReachable s) :
    s.roundResults.length ≤ TOTAL_ROUNDS := by
  have inv := uiReachable_inv h
  cases hs : s.screen with
  | title =>
      obtain ⟨_, he, _⟩ := inv.title_inv hs
      simp [he]
  | game =>
      obtain ⟨h1, h2, _⟩ := inv.game_inv hs
      omega
  | result =>
      obtain ⟨h1, h2, _⟩ := inv.result_inv hs
      omega
  | finalResults =>
      rcases inv.finals_inv hs with ⟨_, h1⟩ | ⟨_, h1⟩
      · exact le_of_eq h1
      · simp [h1]

theorem c3_history_bound_witness :
    UIReachable resultState1 ∧ resultState1.roundResults.length ≤ TOTAL_ROUNDS :=
  ⟨uiReachable_resultState1, c3_history_bound uiReachable_resultState1⟩

/-- C4 counterexample: from the round-1 result screen, an `advance()` whose
fetch rejects sets the error but moves to the Game screen — the session does
not remain in Result. -/
theorem c4_counterexample :
    UIReachable resultState1 ∧
    resultState1.screen = Screen.result ∧
    (nextRound resultState1 none).error = some loadFailureMessage ∧
    (nextRound resultState1 none).screen = Screen.game ∧
    (nextRound resultState1 none).screen ≠ Screen.result :=
  ⟨uiReachable_resultState1, rfl, rfl, rfl, fun h => Screen.noConfusion h⟩

/-- C4 (amended): if the fetch triggered by a non-terminal `advance()`
rejects, the session moves to the Game screen (not Result) with the error
set, the previous image still installed, and the previously recorded round
records preserved in history; the current record is cleared. -/
theorem c4_advance_failure {s : GameState} (_hs : s.screen = Screen.result)
    (hlt : s.currentRound < TOTAL_ROUNDS) :
    (nextRound s none).screen = Screen.game ∧
    (nextRound s none).error = some loadFailureMessage ∧
    (nextRound s none).roundResults = s.roundResults ∧
    (nextRound s none).currentImage = s.currentImage ∧
    (nextRound s none).currentResult = none := by
  obtain ⟨h1, _, h3, h4⟩ := nextRound_of_lt none hlt
  obtain ⟨e1, e2, _, _, _⟩ := nextRound_failure hlt
  exact ⟨h1, e1, h3, e2, h4⟩

theorem c4_advance_failure_witness :
    resultState1.screen = Screen.result ∧
    resultState1.currentRound < TOTAL_ROUNDS ∧
    ((nextRound resultState1 none).screen = Screen.game ∧
     (nextRound resultState1 none).error = some loadFailureMessage ∧
     (nextRound resultState1 none).roundResults = resultState1.roundResults ∧
     (nextRound resultState1 none).currentImage = resultState1.currentImage ∧
     (nextRound resultState1 none).currentResult = none) :=
  ⟨rfl, by decide, c4_advance_failure (s := resultState1) rfl (by decide)⟩

/-- C5: in a UI-reachable result-screen state holding all five round records
(the fifth round's guess has been submitted), `advance()` produces exactly
the same state with the screen switched to FinalResults, for every possible
provider outcome — it neither consults the fetch result nor touches any
other field. -/
theorem c5_terminal_short_circuit {s : GameState} (h : UIReachable s)
    (hs : s.screen = Screen.result)
    (hlen : s.roundResults.length = TOTAL_ROUNDS) (f : Option GameImage) :
    nextRound s f = { s with screen := Screen.finalResults } := by
  obtain ⟨hrd, _, _⟩ := (uiReachable_inv h).result_inv hs
  exact nextRound_of_ge f (hrd.trans hlen).ge

theorem c5_terminal_short_circuit_witness :
    UIReachable resultState5 ∧ resultState5.screen = Screen.result ∧
    resultState5.roundResults.length = TOTAL_ROUNDS ∧
    nextRound resultState5 none = { resultState5 with screen := Screen.finalResults } :=
  ⟨uiReachable_resultState5, rfl, rfl,
   c5_terminal_short_circuit uiReachable_resultState5 rfl rfl none⟩

/-- C6 counterexample: on the round-1 result screen (match not finished),
`currentRound = 1` but `history.length + 1 = 2`. -/
theorem c6_counterexample :
    UIReachable resultState1 ∧
    resultState1.screen = Screen.result ∧
    resultState1.roundResults.length < TOTAL_ROUNDS ∧
    resultState1.currentRound ≠ resultState1.roundResults.length + 1 :=
  ⟨uiReachable_resultState1, rfl, by decide, by decide⟩

/-- C6 (amended): in UI-reachable states, `roundNumber = history.length + 1`
on the Game screen but `roundNumber = history.length` on the Result screen;
on the FinalResults screen either the match is complete
(`roundNumber = totalRounds = history.length`) or a failed Play-Again fetch
has reset the match (`roundNumber = 1`, empty history). -/
theorem c6_round_number {s : GameState} (h : UIReachable s) :
    (s.screen = Screen.game → s.currentRound = s.roundResults.length + 1) ∧
    (s.screen = Screen.result → s.currentRound = s.roundResults.length) ∧
    (s.screen = Screen.finalResults →
      (s.currentRound = TOTAL_ROUNDS ∧ s.roundResults.length = TOTAL_ROUNDS) ∨
      (s.currentRound = 1 ∧ s.roundResults = [])) := by
  have inv := uiReachable_inv h
  exact ⟨fun hs => (inv.game_inv hs).1, fun hs => (inv.result_inv hs).1,
         inv.finals_inv⟩

theorem c6_round_number_witness :
    UIReachable gameState1 ∧ gameState1.screen = Screen.game ∧
    gameState1.currentRound = gameState1.roundResults.length + 1 :=
  ⟨uiReachable_gameState1, rfl, (c6_round_number uiReachable_gameState1).1 rfl⟩

/-- C7 counterexample: advancing from the fifth result screen reaches
FinalResults without clearing `currentResult`, so a record is present while
the screen is not Result — the claimed equivalence fails. -/
theorem c7_counterexample :
    UIReachable finalState ∧
    finalState.screen = Screen.finalResults ∧
    finalState.currentResult.isSome = true ∧
    ¬ (finalState.currentResult.isSome = true ↔ finalState.screen = Screen.result) := by
  refine ⟨uiReachable_finalState, rfl, rfl, fun hiff => ?_⟩
  exact Screen.noConfusion (hiff.mp rfl)

/-- C7 (amended): in UI-reachable states, a current record is always present
on the Result screen, and a present current record implies the screen is
Result or FinalResults (it survives the transition into FinalResults). -/
theorem c7_current_result {s : GameState} (h : UIReachable s) :
    (s.screen = Screen.result → s.currentResult.isSome = true) ∧
    (s.currentResult.isSome = true →
      s.screen = Screen.result ∨ s.screen = Screen.finalResults) := by
  have inv := uiReachable_inv h
  refine ⟨fun hs => (inv.result_inv hs).2.2, fun hsome => ?_⟩
  cases hs : s.screen with
  | title =>
      obtain ⟨_, _, hc⟩ := inv.title_inv hs
      rw [hc] at hsome
      simp at hsome
  | game =>
      obtain ⟨_, _, hc⟩ := inv.game_inv hs
      rw [hc] at hsome
      simp at hsome
  | result => exact Or.inl rfl
  | finalResults => exact Or.inr rfl

theorem c7_current_result_witness :
    UIReachable resultState1 ∧ resultState1.screen = Screen.result ∧
    resultState1.currentResult.isSome = true :=
  ⟨uiReachable_resultState1, rfl,
   (c7_current_result uiReachable_resultState1).1 rfl⟩

/-- C8: in any state whose guess is missing its floor (or its location),
`submitGuess` returns the state completely unchanged — same history, same
screen, no record created. -/
theorem c8_submit_incomplete_noop {s : GameState}
    (h : s.guessLocation = none ∨ s.guessFloor = none) :
    submitGuess s = s :=
  submitGuess_incomplete h

theorem c8_submit_incomplete_noop_witness :
    (initialState.guessLocation = none ∨ initialState.guessFloor = none) ∧
    submitGuess initialState = initialState :=
  ⟨Or.inl rfl, c8_submit_incomplete_noop (Or.inl rfl)⟩

/-- C9 counterexample: `getPerformanceRating` has no division-by-zero guard:
at `total = 1, max = 0` the JavaScript percentage is `+Infinity`, so the code
returns Perfect where the claim requires Beginner. -/
theorem c9_counterexample :
    getPerformanceRating 1 0 = Rating.perfect ∧
    specPerformanceTier 1 0 = Rating.beginner ∧
    getPerformanceRating 1 0 ≠ specPerformanceTier 1 0 := by
  refine ⟨by decide, by decide, by decide⟩

/-- C9 (amended): for `max ≠ 0` the code computes `percentage =
total/max*100` and applies the inclusive threshold ladder exactly as the
claim states; for `max = 0` the percentage is `NaN` or `±Infinity`, so the
result is Beginner when `total ≤ 0` and Perfect when `total > 0`. -/
theorem c9_performance_rating (total maxPossible : ℚ) :
    (maxPossible ≠ 0 →
      getPerformanceRating total maxPossible
        = specTierOfPercentage (total / maxPossible * 100)) ∧
    (maxPossible = 0 →
      getPerformanceRating total maxPossible
        = if 0 < total then Rating.perfect else Rating.beginner) := by
  constructor
  · intro h
    simp [getPerformanceRating, jsDiv, JSNum.mulPos, JSNum.geC,
          specTierOfPercentage, h]
  · intro h
    subst h
    by_cases h0 : total = 0
    · subst h0
      decide
    · by_cases hpos : 0 < total
      · simp [getPerformanceRating, jsDiv, JSNum.mulPos, JSNum.geC, h0, hpos]
      · simp [getPerformanceRating, jsDiv, JSNum.mulPos, JSNum.geC, h0, hpos]

theorem c9_performance_rating_witness :
    (25000 : ℚ) ≠ 0 ∧
    getPerformanceRating 24000 25000
      = specTierOfPercentage (24000 / 25000 * 100) :=
  ⟨by norm_num, (c9_performance_rating 24000 25000).1 (by norm_num)⟩

/-- C10: `startGame` (Play Again) wipes the round counter, history and
current record before the fetch, so when the fetch rejects the session stays
on the FinalResults screen with the error set and the history already empty:
the completed match's records are lost. -/
theorem c10_play_again_failure {s : GameState}
    (hs : s.screen = Screen.finalResults) :
    (startGame s none).screen = Screen.finalResults ∧
    (startGame s none).error = some loadFailureMessage ∧
    (startGame s none).roundResults = [] ∧
    (startGame s none).currentRound = 1 ∧
    (startGame s none).currentResult = none :=
  ⟨hs, rfl, rfl, rfl, rfl⟩

theorem c10_play_again_failure_witness :
    UIReachable finalState ∧
    finalState.screen = Screen.finalResults ∧
    finalState.roundResults.length = TOTAL_ROUNDS ∧
    (startGame finalState none).screen = Screen.finalResults ∧
    (startGame finalState none).roundResults = [] :=
  ⟨uiReachable_finalState, rfl, rfl,
   (c10_play_again_failure (s := finalState) rfl).1,
   (c10_play_again_failure (s := finalState) rfl).2.2.1⟩

end GeoGuessr
